import Mathlib

/-!
Shallow embedding of the vork coding-assistant core: the approval/sandbox
gate (src/llm/approval.rs), the conversation/context manager
(src/llm/conversation.rs), the tool-call processing loop of the chat
command (src/commands/chat.rs), and session persistence
(src/llm/session.rs together with src/commands/resume.rs).  Definitions
mirror the Rust source; the theorems settle the specification claims
about them.
-/

namespace Vork

deriving instance DecidableEq for Except

/-- Rust enum `ApprovalPolicy` (src/config.rs lines 26-31):
`auto`, `read-only`, `always-ask`, `never`. -/
inductive ApprovalPolicy where
  | auto
  | readOnly
  | alwaysAsk
  | never
deriving DecidableEq, Repr

/-- Rust enum `SandboxMode` (src/config.rs lines 35-39):
`read-only`, `workspace-write`, `danger-full-access`. -/
inductive SandboxMode where
  | readOnly
  | workspaceWrite
  | dangerFullAccess
deriving DecidableEq, Repr

/-- Outcome of one approval check.  `approve` models `Ok(true)` returned
without any prompt, `deny` models `Ok(false)` returned without any
prompt, and `prompt` models a call to `ApprovalSystem::prompt_user`
(a blocking interactive yes/no read whose answer becomes the result). -/
inductive Decision where
  | approve
  | deny
  | prompt
deriving DecidableEq, Repr

/-- Substring occurrence test over character lists.  `strContainsAux pat s`
is true when `pat` occurs contiguously inside `s`. -/
def strContainsAux (pat : List Char) : List Char → Bool
  | [] => pat.isEmpty
  | c :: rest => List.isPrefixOf pat (c :: rest) || strContainsAux pat rest

/-- Models Rust `str::contains` with a literal pattern:
`strContains s pat` is true when `pat` occurs as a substring of `s`. -/
def strContains (s pat : String) : Bool := strContainsAux pat.data s.data

/-- Split a character list at every `/`; auxiliary for the path-component
view used by `std::path::Path`. -/
def splitSlash : List Char → List (List Char)
  | [] => [[]]
  | c :: rest =>
    let r := splitSlash rest
    if c == '/' then [] :: r
    else
      match r with
      | [] => [[c]]
      | h :: t => (c :: h) :: t

/-- Models `std::path::Path::is_absolute` on Linux: the path begins with
the separator `/`. -/
def isAbsolute (p : String) : Bool :=
  match p.data with
  | [] => false
  | c :: _ => c == '/'

/-- Models the `Normal`/`CurDir`/`ParentDir` component view of
`std::path::Path::components` (after the optional `RootDir`, which is
tracked separately by `isAbsolute`): empty segments are dropped, a `.`
segment is kept only in leading position, and `..` segments are kept. -/
def pathComponents (p : String) : List (List Char) :=
  match (splitSlash p.data).filter (fun c => !c.isEmpty) with
  | [] => []
  | c :: rest => c :: rest.filter (fun c => c != ['.'])

/-- Models Rust `Path::starts_with`: the base path is a prefix of `p`
component-wise, with the `RootDir` component (absoluteness) compared
first. -/
def path_starts_with (p base : String) : Bool :=
  (isAbsolute p == isAbsolute base) && List.isPrefixOf (pathComponents base) (pathComponents p)

/-- Rust struct `ApprovalSystem` (src/llm/approval.rs lines 7-10). -/
structure ApprovalSystem where
  policy : ApprovalPolicy
  sandbox_mode : SandboxMode
deriving DecidableEq, Repr

/-- `ApprovalSystem::is_within_workspace` (src/llm/approval.rs lines
108-112): `!path.is_absolute() || path.starts_with(current_dir)`.  The
process current directory (`std::env::current_dir()`) is passed in as
`cwd`. -/
def ApprovalSystem.is_within_workspace (_sys : ApprovalSystem) (cwd path : String) : Bool :=
  !(isAbsolute path) || path_starts_with path cwd

/-- The pattern list of `ApprovalSystem::is_dangerous_command`
(src/llm/approval.rs lines 115-129). -/
def dangerous_patterns : List String :=
  ["rm -rf", "rm -fr", "sudo", "shutdown", "reboot", "mkfs", "dd if=",
   "format", "> /dev/", "curl", "wget", "nc ", "netcat"]

/-- `ApprovalSystem::is_dangerous_command` (src/llm/approval.rs lines
114-134): the command contains one of the fixed dangerous patterns. -/
def ApprovalSystem.is_dangerous_command (_sys : ApprovalSystem) (command : String) : Bool :=
  dangerous_patterns.any (fun pat => strContains command pat)

/-- The pattern list of `ApprovalSystem::is_critical_dangerous_command`
(src/llm/approval.rs lines 138-146). -/
def critical_patterns : List String :=
  ["sudo", "shutdown", "reboot", "mkfs", "dd if=", "format", "> /dev/"]

/-- `ApprovalSystem::is_critical_dangerous_command` (src/llm/approval.rs
lines 136-151). -/
def ApprovalSystem.is_critical_dangerous_command (_sys : ApprovalSystem) (command : String) : Bool :=
  critical_patterns.any (fun pat => strContains command pat)

/-- `ApprovalSystem::should_approve_write` (src/llm/approval.rs lines
20-58), with the interactive branch represented by `Decision.prompt`. -/
def ApprovalSystem.should_approve_write (sys : ApprovalSystem) (cwd path : String) : Decision :=
  match sys.sandbox_mode with
  | SandboxMode.readOnly => Decision.deny
  | SandboxMode.workspaceWrite =>
    match sys.policy with
    | ApprovalPolicy.auto =>
      if sys.is_within_workspace cwd path then Decision.approve else Decision.prompt
    | ApprovalPolicy.readOnly => Decision.prompt
    | ApprovalPolicy.alwaysAsk => Decision.prompt
    | ApprovalPolicy.never => Decision.approve
  | SandboxMode.dangerFullAccess =>
    match sys.policy with
    | ApprovalPolicy.alwaysAsk => Decision.prompt
    | ApprovalPolicy.readOnly => Decision.prompt
    | _ => Decision.approve

/-- `ApprovalSystem::should_approve_bash` (src/llm/approval.rs lines
60-106), with the interactive branch represented by `Decision.prompt`. -/
def ApprovalSystem.should_approve_bash (sys : ApprovalSystem) (command : String) : Decision :=
  match sys.sandbox_mode with
  | SandboxMode.readOnly => Decision.deny
  | SandboxMode.workspaceWrite =>
    match sys.policy with
    | ApprovalPolicy.auto =>
      if sys.is_dangerous_command command then Decision.prompt else Decision.approve
    | ApprovalPolicy.readOnly => Decision.prompt
    | ApprovalPolicy.alwaysAsk => Decision.prompt
    | ApprovalPolicy.never => Decision.approve
  | SandboxMode.dangerFullAccess =>
    match sys.policy with
    | ApprovalPolicy.alwaysAsk => Decision.prompt
    | ApprovalPolicy.readOnly => Decision.prompt
    | ApprovalPolicy.never =>
      if sys.is_critical_dangerous_command command then Decision.prompt else Decision.approve
    | _ => Decision.approve

/-- Normalisation of a component list: `.` segments are dropped and a
`..` segment removes the preceding component.  Auxiliary for the
spec-side reading of "resolves inside the working directory". -/
def normalizeComponents (cs : List (List Char)) : List (List Char) :=
  cs.foldl
    (fun acc c =>
      if c == ['.'] then acc
      else if c == ['.', '.'] then acc.dropLast
      else acc ++ [c])
    []

/-- Spec-side definition, written from the specification words "writes
whose target path resolves inside the current working directory": the
target, resolved against `cwd` (joining when relative and collapsing
`.` and `..` segments), lies at or below `cwd`.  Kept separate from the
source-side `ApprovalSystem.is_within_workspace` so the two can be
compared. -/
def spec_resolves_inside_workspace (cwd path : String) : Bool :=
  let cwdN := normalizeComponents (pathComponents cwd)
  let resolved :=
    if isAbsolute path then normalizeComponents (pathComponents path)
    else normalizeComponents (pathComponents cwd ++ pathComponents path)
  List.isPrefixOf cwdN resolved

/-- Claim-side list for the critical-command gate, written from the
specification words "sudo/shutdown/reboot/mkfs/dd/device-redirect": the
patterns the claim enumerates as forcing a prompt under policy `never`.
Kept separate from the source-side `critical_patterns` so the two can
be compared. -/
def claimed_critical_patterns : List String :=
  ["sudo", "shutdown", "reboot", "mkfs", "dd if=", "> /dev/"]

/-- Rust struct `Message` (src/llm/client.rs lines 4-8). -/
structure Message where
  role : String
  content : String
deriving DecidableEq, Repr

/-- `estimate_tokens` (src/llm/conversation.rs lines 212-217):
`(text.len() / 4) + 10`, where `len()` counts UTF-8 bytes. -/
def estimate_tokens (text : String) : Nat :=
  text.utf8ByteSize / 4 + 10

/-- Rust struct `Conversation` (src/llm/conversation.rs lines 8-15).
The fields `estimated_tokens` and `max_context` carry
`#[serde(skip)]` in the source: they are not serialised, and
deserialisation fills them with the `usize` default `0`. -/
structure Conversation where
  messages : List Message
  estimated_tokens : Nat
  max_context : Nat
deriving DecidableEq, Repr

/-- `Conversation::new` (src/llm/conversation.rs lines 18-30).  The
source fixes `systemPrompt` to the constant `SYSTEM_PROMPT` string; its
exact text only enters through `estimate_tokens`, so it is a parameter
here. -/
def Conversation.new (systemPrompt : String) : Conversation :=
  { messages := [{ role := "system", content := systemPrompt }],
    estimated_tokens := estimate_tokens systemPrompt,
    max_context := 32768 }

/-- `Conversation::set_max_context` (src/llm/conversation.rs lines 32-34). -/
def Conversation.set_max_context (conv : Conversation) (max_context : Nat) : Conversation :=
  { conv with max_context := max_context }

/-- `Conversation::add_user_message` (src/llm/conversation.rs lines 42-48). -/
def Conversation.add_user_message (conv : Conversation) (content : String) : Conversation :=
  { conv with
    estimated_tokens := conv.estimated_tokens + estimate_tokens content,
    messages := conv.messages ++ [{ role := "user", content := content }] }

/-- `Conversation::add_assistant_message` (src/llm/conversation.rs lines 50-56). -/
def Conversation.add_assistant_message (conv : Conversation) (content : String) : Conversation :=
  { conv with
    estimated_tokens := conv.estimated_tokens + estimate_tokens content,
    messages := conv.messages ++ [{ role := "assistant", content := content }] }

/-- The fixed textual template of `Conversation::add_tool_result`
(src/llm/conversation.rs line 60). -/
def tool_result_content (tool_name result : String) : String :=
  "Tool execution result:\nTool: " ++ tool_name ++ "\nResult:\n" ++ result

/-- `Conversation::add_tool_result` (src/llm/conversation.rs lines 58-66):
tool results are appended as user-role messages. -/
def Conversation.add_tool_result (conv : Conversation) (tool_name result : String) : Conversation :=
  let content := tool_result_content tool_name result
  { conv with
    estimated_tokens := conv.estimated_tokens + estimate_tokens content,
    messages := conv.messages ++ [{ role := "user", content := content }] }

/-- `Conversation::needs_compaction` (src/llm/conversation.rs lines 69-71):
`estimated_tokens > max_context * 3 / 4`. -/
def Conversation.needs_compaction (conv : Conversation) : Bool :=
  conv.estimated_tokens > conv.max_context * 3 / 4

/-- Models Rust `[T]::join` / iterator `join(sep)`. -/
def joinSep (sep : String) : List String → String
  | [] => ""
  | [s] => s
  | s :: rest => s ++ sep ++ joinSep sep rest

/-- Rendering of one message inside the summarisation prompt
(src/llm/conversation.rs line 100): `format ("{}: {}", role, content)`. -/
def render_message (m : Message) : String :=
  m.role ++ ": " ++ m.content

/-- The summarisation instruction built by `Conversation::compact_if_needed`
(src/llm/conversation.rs lines 104-113), around the rendered text of the
messages being summarised. -/
def summary_prompt_of (conversation_text : String) : String :=
  "Summarize the following conversation history concisely, preserving key facts, decisions, and context. Focus on:\n- Important technical details and decisions\n- File modifications and their purposes\n- Commands executed and their results\n- Any errors or issues encountered\n\nConversation:\n"
    ++ conversation_text ++ "\n\nProvide a concise summary in 2-3 paragraphs:"

/-- The full prompt sent to the backend by `compact_if_needed`: the
template around the middle messages (all but the system message and the
last 10), each rendered as `role: content` and joined by blank lines. -/
def compact_prompt (conv : Conversation) : String :=
  summary_prompt_of
    (joinSep "\n\n"
      (((conv.messages.drop 1).take (conv.messages.length - 11)).map render_message))

/-- The conversation rebuilt by a successful run of
`Conversation::compact_if_needed` (src/llm/conversation.rs lines
87-144): keep the system message (index 0), insert one synthetic
assistant message tagging the number of summarised messages and
carrying the backend's reply, keep the last 10 messages, and recompute
`estimated_tokens` from scratch over the new log in the source's
accumulation order. -/
def compacted (conv : Conversation) (summary_response : String) : Conversation :=
  let system_msg := conv.messages.headD { role := "", content := "" }
  let messages_to_compact := (conv.messages.drop 1).take (conv.messages.length - 11)
  let recent_messages := conv.messages.drop (conv.messages.length - 10)
  let summary_msg : Message :=
    { role := "assistant",
      content := "[Conversation summary of " ++ toString messages_to_compact.length
        ++ " messages]\n\n" ++ summary_response }
  let est := recent_messages.foldl (fun acc m => acc + estimate_tokens m.content)
    (estimate_tokens system_msg.content + estimate_tokens summary_msg.content)
  { messages := system_msg :: summary_msg :: recent_messages,
    estimated_tokens := est,
    max_context := conv.max_context }

/-- `Conversation::compact_if_needed` (src/llm/conversation.rs lines
75-145).  The backend collaborator (`client.chat_completion` on a single
user message followed by the `choices[0].message.content` extraction
with `unwrap_or_default`) is abstracted as `summarize`: `Except.error`
models a failed call (the `?` propagation), `Except.ok s` a successful
call whose extracted reply text is `s`.  The returned pair is the
post-state of `&mut self` together with the `Result<bool>`; the source
assigns to `self` only after the summarisation call has succeeded. -/
def Conversation.compact_if_needed (conv : Conversation)
    (summarize : String → Except String String) : Conversation × Except String Bool :=
  if !conv.needs_compaction then (conv, Except.ok false)
  else if conv.messages.length ≤ 11 then (conv, Except.ok false)
  else
    match summarize (compact_prompt conv) with
    | Except.error e => (conv, Except.error e)
    | Except.ok summary_response => (compacted conv summary_response, Except.ok true)

/-- One mutation of the conversation log, as performed by the three
append operations of the agent loop. -/
inductive ConvOp where
  | user (content : String)
  | assistant (content : String)
  | toolResult (tool_name result : String)

/-- Apply one append operation. -/
def applyOp (conv : Conversation) : ConvOp → Conversation
  | ConvOp.user content => conv.add_user_message content
  | ConvOp.assistant content => conv.add_assistant_message content
  | ConvOp.toolResult tool_name result => conv.add_tool_result tool_name result

/-- The token-accounting invariant of the specification:
`estimated_tokens` is the sum of the per-message estimate over the
current log. -/
def tokens_invariant (conv : Conversation) : Prop :=
  conv.estimated_tokens = (conv.messages.map (fun m => estimate_tokens m.content)).sum

/-- One tool call as it arrives from the backend
(`ToolCallResponse.function`, src/llm/client.rs lines 38-49): a tool
name and a JSON-encoded argument string that still has to be parsed. -/
structure ToolCall where
  name : String
  arguments : String
deriving DecidableEq, Repr

/-- The per-response tool-call processing loop of `chat::execute`
(src/commands/chat.rs lines 131-149; the same shape appears in
src/commands/tui.rs lines 384-417, resume.rs, ask.rs and exec.rs).
`parse` abstracts `serde_json::from_str` on the argument string and
`exec` abstracts `execute_tool`.  A parse failure hits
`.context("Failed to parse tool arguments")?` in the source: the error
propagates out of the whole exchange, which the `Except.error` result
models; nothing is appended for that call.  An execution failure is
appended as an `Error: …` tool result and the loop continues. -/
def processToolCalls {α : Type} (parse : String → Except String α)
    (exec : String → α → Except String String) :
    Conversation → List ToolCall → Conversation × Except String Unit
  | conv, [] => (conv, Except.ok ())
  | conv, tc :: rest =>
    match parse tc.arguments with
    | Except.error e => (conv, Except.error ("Failed to parse tool arguments: " ++ e))
    | Except.ok args =>
      match exec tc.name args with
      | Except.ok result =>
        processToolCalls parse exec (conv.add_tool_result tc.name result) rest
      | Except.error e =>
        processToolCalls parse exec (conv.add_tool_result tc.name ("Error: " ++ e)) rest

/-- Rust struct `Session` (src/llm/session.rs lines 11-17).  The chrono
timestamps are modelled as integers. -/
structure Session where
  id : String
  created_at : Int
  updated_at : Int
  conversation : Conversation
  working_directory : String
deriving DecidableEq, Repr

/-- The serde-visible content of one persisted session file
(`sessions/<id>.json`): every `Session` field, with the conversation
reduced to its message list because `estimated_tokens` and
`max_context` carry `#[serde(skip)]`. -/
structure SessionRecord where
  id : String
  created_at : Int
  updated_at : Int
  messages : List Message
  working_directory : String
deriving DecidableEq, Repr

/-- The session store: the keyed record collaborator behind
`fs::write`/`fs::read_to_string` on `sessions_dir()/{id}.json`, one
record per session id. -/
def Store : Type := String → Option SessionRecord

/-- `Session::save` (src/llm/session.rs lines 40-51): set `updated_at`
to the current time and write the serialised record under the session's
id. -/
def Session.save (store : Store) (s : Session) (now : Int) : Store :=
  fun key =>
    if key = s.id then
      some { id := s.id, created_at := s.created_at, updated_at := now,
             messages := s.conversation.messages,
             working_directory := s.working_directory }
    else store key

/-- `Session::load` (src/llm/session.rs lines 53-58): read and
deserialise the record stored under `session_id`.  The serde-skipped
conversation fields come back as the `usize` default `0`; neither
`Session::load` nor `resume::execute` (src/commands/resume.rs lines
9-63) recomputes them. -/
def Session.load (store : Store) (session_id : String) : Option Session :=
  (store session_id).map fun r =>
    { id := r.id, created_at := r.created_at, updated_at := r.updated_at,
      conversation := { messages := r.messages, estimated_tokens := 0, max_context := 0 },
      working_directory := r.working_directory }

/-- Concrete conversation for exercising the tool-call loop. -/
def convC2ex : Conversation :=
  { messages := [{ role := "system", content := "sys" }],
    estimated_tokens := 10, max_context := 32768 }

/-- Concrete 12-message conversation over the compaction threshold. -/
def convC6ex : Conversation :=
  { messages := { role := "system", content := "sys" } ::
      (List.range 11).map (fun i => { role := "user", content := toString i }),
    estimated_tokens := 1000, max_context := 4 }

/-- Concrete short conversation over the compaction threshold. -/
def convC6small : Conversation :=
  { messages := [{ role := "system", content := "sys" }],
    estimated_tokens := 1000, max_context := 4 }

/-- Concrete one-message conversation satisfying the token invariant. -/
def convC7ex : Conversation :=
  { messages := [{ role := "system", content := "sys" }],
    estimated_tokens := 10, max_context := 32768 }

/-- Concrete 12-message conversation over the compaction threshold. -/
def convC8ex : Conversation :=
  { messages := { role := "system", content := "sys" } ::
      (List.range 11).map (fun i => { role := "user", content := toString i }),
    estimated_tokens := 1000, max_context := 4 }

/-- Concrete session with a two-message log. -/
def sessC10ex : Session :=
  { id := "s1", created_at := 0, updated_at := 0,
    conversation := { messages := [{ role := "system", content := "sys prompt" },
                                   { role := "user", content := "hello" }],
                      estimated_tokens := 23, max_context := 32768 },
    working_directory := "/home/user/proj" }

/-- Empty session store. -/
def emptyStoreC10 : Store := fun _ => none

/-- The session obtained by loading `sessC10ex` back from the store. -/
def loadedC10 : Session :=
  { id := "s1", created_at := 0, updated_at := 5,
    conversation := { messages := [{ role := "system", content := "sys prompt" },
                                   { role := "user", content := "hello" }],
                      estimated_tokens := 0, max_context := 0 },
    working_directory := "/home/user/proj" }

theorem foldl_add_estimate (l : List Message) (init : Nat) :
    l.foldl (fun acc m => acc + estimate_tokens m.content) init
      = init + (l.map (fun m => estimate_tokens m.content)).sum := by
  induction l generalizing init with
  | nil => simp
  | cons m rest ih => simp [ih, Nat.add_assoc]

theorem compact_not_needed_eq (conv : Conversation) (summarize : String → Except String String)
    (h : conv.needs_compaction = false) :
    conv.compact_if_needed summarize = (conv, Except.ok false) := by
  simp [Conversation.compact_if_needed, h]

theorem compact_short_eq (conv : Conversation) (summarize : String → Except String String)
    (h : conv.messages.length ≤ 11) :
    conv.compact_if_needed summarize = (conv, Except.ok false) := by
  cases hn : conv.needs_compaction with
  | false => simp [Conversation.compact_if_needed, hn]
  | true => simp [Conversation.compact_if_needed, hn, h]

theorem compact_ok_eq (conv : Conversation) (summarize : String → Except String String)
    (s : String) (hneed : conv.needs_compaction = true)
    (hlen : ¬ conv.messages.length ≤ 11)
    (hok : summarize (compact_prompt conv) = Except.ok s) :
    conv.compact_if_needed summarize = (compacted conv s, Except.ok true) := by
  simp [Conversation.compact_if_needed, hneed, hlen, hok]

theorem compacted_messages_eq (conv : Conversation) (s : String) :
    (compacted conv s).messages
      = conv.messages.headD { role := "", content := "" } ::
        { role := "assistant",
          content := "[Conversation summary of "
            ++ toString ((conv.messages.drop 1).take (conv.messages.length - 11)).length
            ++ " messages]\n\n" ++ s } ::
        conv.messages.drop (conv.messages.length - 10) := rfl

theorem tokens_invariant_compacted (conv : Conversation) (s : String) :
    tokens_invariant (compacted conv s) := by
  simp [tokens_invariant, compacted, foldl_add_estimate, Nat.add_assoc]

theorem tokens_invariant_applyOp (conv : Conversation) (op : ConvOp)
    (h : tokens_invariant conv) : tokens_invariant (applyOp conv op) := by
  cases op <;>
    simp [applyOp, Conversation.add_user_message, Conversation.add_assistant_message,
      Conversation.add_tool_result, tokens_invariant, h] <;>
    exact h

theorem tokens_invariant_foldl (ops : List ConvOp) (conv : Conversation)
    (h : tokens_invariant conv) : tokens_invariant (ops.foldl applyOp conv) := by
  induction ops generalizing conv with
  | nil => exact h
  | cons op rest ih => exact ih _ (tokens_invariant_applyOp conv op h)

/-- C1, counterexample: with cwd `/home/user`, the relative target
`../x` does not resolve inside the working directory, yet
`should_approve_write` under workspace-write with policy auto
auto-approves it without prompting — so auto-approval is not equivalent
to resolving inside the working directory, and a write whose target
resolves outside is not always escalated to a prompt. -/
theorem C1_write_gate_counterexample :
    spec_resolves_inside_workspace "/home/user" "../x" = false ∧
    (ApprovalSystem.mk ApprovalPolicy.auto SandboxMode.workspaceWrite).should_approve_write
      "/home/user" "../x" = Decision.approve := by
  decide

/-- C1 (amended): under sandbox mode workspace-write with approval
policy auto, `should_approve_write` approves automatically (without
prompting) if and only if the target path is relative, or is absolute
and starts with the current working directory component-wise; exactly
the absolute targets outside the working directory are escalated to an
interactive prompt.  No `..` resolution is performed, so a relative
path may escape the workspace and still be auto-approved. -/
theorem C1_write_gate_amended (cwd path : String) :
    ((ApprovalSystem.mk ApprovalPolicy.auto SandboxMode.workspaceWrite).should_approve_write
        cwd path = Decision.approve
      ↔ (isAbsolute path = false ∨ path_starts_with path cwd = true)) ∧
    ((ApprovalSystem.mk ApprovalPolicy.auto SandboxMode.workspaceWrite).should_approve_write
        cwd path = Decision.prompt
      ↔ (isAbsolute path = true ∧ path_starts_with path cwd = false)) := by
  cases h1 : isAbsolute path <;> cases h2 : path_starts_with path cwd <;>
    simp [ApprovalSystem.should_approve_write, ApprovalSystem.is_within_workspace, h1, h2]

/-- C2, counterexample: a tool call whose argument string fails to
parse makes the processing loop return an exchange-level error (the
propagated `Failed to parse tool arguments` failure) and appends
nothing to the conversation — the parse error is not turned into a tool
result. -/
theorem C2_parse_error_counterexample :
    (processToolCalls (fun _ => (Except.error "expected value" : Except String Unit))
        (fun _ _ => Except.ok "unused") convC2ex
        [{ name := "write_file", arguments := "not json" }]).2
      = Except.error "Failed to parse tool arguments: expected value" ∧
    (processToolCalls (fun _ => (Except.error "expected value" : Except String Unit))
        (fun _ _ => Except.ok "unused") convC2ex
        [{ name := "write_file", arguments := "not json" }]).1.messages
      = convC2ex.messages := by
  decide

/-- C2 (amended): in the tool-call execution loop, a tool call whose
arguments string fails to parse aborts the exchange: the parse error
propagates as an exchange-level failure surfaced to the operator, the
conversation is left without any tool-result message for that call, and
the remaining tool calls of the response are not processed. -/
theorem C2_parse_error_amended {α : Type} (parse : String → Except String α)
    (exec : String → α → Except String String) (conv : Conversation)
    (tc : ToolCall) (rest : List ToolCall) (e : String)
    (hp : parse tc.arguments = Except.error e) :
    processToolCalls parse exec conv (tc :: rest)
      = (conv, Except.error ("Failed to parse tool arguments: " ++ e)) := by
  simp [processToolCalls, hp]

/-- C2 witness: the amended behaviour at a concrete malformed tool
call. -/
theorem C2_parse_error_amended_witness :
    processToolCalls (fun _ => (Except.error "expected value" : Except String Unit))
        (fun _ _ => Except.ok "unused") convC2ex
        [{ name := "write_file", arguments := "not json" }]
      = (convC2ex, Except.error ("Failed to parse tool arguments: " ++ "expected value")) :=
  C2_parse_error_amended (fun _ => (Except.error "expected value" : Except String Unit))
    (fun _ _ => Except.ok "unused") convC2ex
    { name := "write_file", arguments := "not json" } [] "expected value" rfl

/-- C3: under sandbox mode read-only, for every approval policy,
`should_approve_write` denies every path and `should_approve_bash`
denies every command, in both cases returning the denial directly
(`Decision.deny`) rather than ever reaching the interactive prompt. -/
theorem C3_read_only_denies_all (policy : ApprovalPolicy) (cwd path command : String) :
    (ApprovalSystem.mk policy SandboxMode.readOnly).should_approve_write cwd path
      = Decision.deny ∧
    (ApprovalSystem.mk policy SandboxMode.readOnly).should_approve_bash command
      = Decision.deny :=
  ⟨rfl, rfl⟩

/-- C4, counterexample: the command `echo format` contains none of the
claim's enumerated critical patterns (sudo, shutdown, reboot, mkfs,
dd if=, > /dev/), yet under danger-full-access with policy never the
gate prompts instead of auto-approving, because the source's critical
list additionally contains the pattern `format`. -/
theorem C4_critical_gate_counterexample :
    (claimed_critical_patterns.any (fun pat => strContains "echo format" pat)) = false ∧
    (ApprovalSystem.mk ApprovalPolicy.never SandboxMode.dangerFullAccess).should_approve_bash
      "echo format" = Decision.prompt := by
  decide

/-- C4 (amended): under sandbox mode danger-full-access with approval
policy never, `should_approve_bash` auto-approves (without prompting)
exactly the commands containing none of the source's critical patterns
(sudo, shutdown, reboot, mkfs, dd if=, format, > /dev/), and forces an
interactive prompt exactly on the commands containing one of them. -/
theorem C4_critical_gate_amended (command : String) :
    ((ApprovalSystem.mk ApprovalPolicy.never SandboxMode.dangerFullAccess).should_approve_bash
        command = Decision.approve
      ↔ critical_patterns.any (fun pat => strContains command pat) = false) ∧
    ((ApprovalSystem.mk ApprovalPolicy.never SandboxMode.dangerFullAccess).should_approve_bash
        command = Decision.prompt
      ↔ critical_patterns.any (fun pat => strContains command pat) = true) := by
  cases h : critical_patterns.any (fun pat => strContains command pat) <;>
    simp [ApprovalSystem.should_approve_bash, ApprovalSystem.is_critical_dangerous_command, h]

/-- C5: under sandbox mode workspace-write with approval policy auto,
`should_approve_bash` auto-approves (without prompting) exactly the
commands matching none of the fixed dangerous patterns, and escalates
exactly the commands containing one of them to an interactive prompt. -/
theorem C5_dangerous_gate (command : String) :
    ((ApprovalSystem.mk ApprovalPolicy.auto SandboxMode.workspaceWrite).should_approve_bash
        command = Decision.approve
      ↔ dangerous_patterns.any (fun pat => strContains command pat) = false) ∧
    ((ApprovalSystem.mk ApprovalPolicy.auto SandboxMode.workspaceWrite).should_approve_bash
        command = Decision.prompt
      ↔ dangerous_patterns.any (fun pat => strContains command pat) = true) := by
  cases h : dangerous_patterns.any (fun pat => strContains command pat) <;>
    simp [ApprovalSystem.should_approve_bash, ApprovalSystem.is_dangerous_command, h]

/-- C6, counterexample: on a 12-message conversation over the
threshold whose summarisation succeeds with reply `S`, the synthetic
assistant message is tagged with the number of summarised messages
(`N - 11 = 1`), not with the conversation's message count `N = 12` as
the claim states. -/
theorem C6_compaction_counterexample :
    convC6ex.messages.length = 12 ∧
    convC6ex.needs_compaction = true ∧
    (convC6ex.compact_if_needed (fun _ => Except.ok "S")).2 = Except.ok true ∧
    (convC6ex.compact_if_needed (fun _ => Except.ok "S")).1.messages.get? 1
      = some { role := "assistant", content := "[Conversation summary of 1 messages]\n\nS" } ∧
    (convC6ex.compact_if_needed (fun _ => Except.ok "S")).1.messages.get? 1
      ≠ some { role := "assistant", content := "[Conversation summary of 12 messages]\n\nS" } := by
  decide

/-- C6 (amended): for every conversation of N > 11 messages for which
`needs_compaction` is true and whose summarisation call succeeds with
reply `s`, `compact_if_needed` returns true and leaves exactly 12
messages — the original message at index 0, one synthetic assistant
message tagged `[Conversation summary of N-11 messages]` (the number of
summarised messages) plus the summary text, and then the original log's
last 10 messages unchanged and in original order; and for every log of
11 or fewer messages it never mutates the log and reports that it did
not compact, regardless of token usage. -/
theorem C6_compaction_amended :
    (∀ (conv : Conversation) (summarize : String → Except String String) (s : String),
      11 < conv.messages.length →
      conv.needs_compaction = true →
      summarize (compact_prompt conv) = Except.ok s →
      ∃ conv2 : Conversation,
        conv.compact_if_needed summarize = (conv2, Except.ok true) ∧
        conv2.messages.length = 12 ∧
        conv2.messages.head? = conv.messages.head? ∧
        conv2.messages.get? 1
          = some { role := "assistant",
                   content := "[Conversation summary of "
                     ++ toString (conv.messages.length - 11) ++ " messages]\n\n" ++ s } ∧
        conv2.messages.drop 2 = conv.messages.drop (conv.messages.length - 10)) ∧
    (∀ (conv : Conversation) (summarize : String → Except String String),
      conv.messages.length ≤ 11 →
      conv.compact_if_needed summarize = (conv, Except.ok false)) := by
  constructor
  · intro conv summarize s h11 hneed hok
    have hlen : ¬ conv.messages.length ≤ 11 := by omega
    have hcount : ((conv.messages.drop 1).take (conv.messages.length - 11)).length
        = conv.messages.length - 11 := by
      simp [List.length_take, List.length_drop]
      omega
    refine ⟨compacted conv s, compact_ok_eq conv summarize s hneed hlen hok, ?_, ?_, ?_, ?_⟩
    · rw [compacted_messages_eq]
      simp [List.length_drop]
      omega
    · rw [compacted_messages_eq]
      cases hm : conv.messages with
      | nil => rw [hm] at h11; simp at h11
      | cons a l => simp [hm]
    · rw [compacted_messages_eq, hcount]
      rfl
    · rw [compacted_messages_eq]
      rfl
  · intro conv summarize hle
    exact compact_short_eq conv summarize hle

/-- C6 witness: the amended behaviour at a concrete 12-message
conversation (successful summarisation) and at a concrete short
conversation (no compaction). -/
theorem C6_compaction_amended_witness :
    (convC6ex.compact_if_needed (fun _ => Except.ok "S")).1.messages.length = 12 ∧
    convC6small.compact_if_needed (fun _ => Except.ok "S") = (convC6small, Except.ok false) := by
  obtain ⟨conv2, hres, h12, -, -, -⟩ :=
    C6_compaction_amended.1 convC6ex (fun _ => Except.ok "S") "S" (by decide) (by decide) rfl
  refine ⟨?_, C6_compaction_amended.2 convC6small (fun _ => Except.ok "S") (by decide)⟩
  rw [hres]
  exact h12

/-- C7: after any sequence of `add_user_message`, `add_assistant_message`
and `add_tool_result` calls starting from a fresh conversation, and
after any run of `compact_if_needed` on a conversation satisfying the
invariant, `estimated_tokens` equals the sum of `len(content)/4 + 10`
over every message currently in the log. -/
theorem C7_token_invariant :
    (∀ (systemPrompt : String) (ops : List ConvOp),
      tokens_invariant (ops.foldl applyOp (Conversation.new systemPrompt))) ∧
    (∀ (conv conv2 : Conversation) (summarize : String → Except String String)
        (r : Except String Bool),
      tokens_invariant conv →
      conv.compact_if_needed summarize = (conv2, r) →
      tokens_invariant conv2) := by
  constructor
  · intro systemPrompt ops
    refine tokens_invariant_foldl ops (Conversation.new systemPrompt) ?_
    simp [tokens_invariant, Conversation.new]
  · intro conv conv2 summarize r hinv heq
    unfold Conversation.compact_if_needed at heq
    split at heq
    · rw [Prod.mk.injEq] at heq
      obtain ⟨rfl, -⟩ := heq
      exact hinv
    · split at heq
      · rw [Prod.mk.injEq] at heq
        obtain ⟨rfl, -⟩ := heq
        exact hinv
      · split at heq
        · rw [Prod.mk.injEq] at heq
          obtain ⟨rfl, -⟩ := heq
          exact hinv
        · rw [Prod.mk.injEq] at heq
          obtain ⟨rfl, -⟩ := heq
          exact tokens_invariant_compacted conv _

/-- C7 witness: the invariant at a concrete operation sequence and
after a concrete (non-compacting) run of `compact_if_needed`. -/
theorem C7_token_invariant_witness :
    tokens_invariant ([ConvOp.user "hi", ConvOp.toolResult "read_file" "ok"].foldl applyOp
      (Conversation.new "sys")) ∧
    tokens_invariant convC7ex :=
  ⟨C7_token_invariant.1 "sys" [ConvOp.user "hi", ConvOp.toolResult "read_file" "ok"],
   C7_token_invariant.2 convC7ex convC7ex (fun _ => Except.ok "S") (Except.ok false)
     rfl rfl⟩

/-- C8: if the summarisation backend call inside `compact_if_needed`
fails (on a conversation where the call is actually made: over the
threshold and with more than 11 messages), the error propagates to the
caller and the conversation is left exactly as it was — message list
and `estimated_tokens` unchanged. -/
theorem C8_compaction_failure (conv : Conversation) (summarize : String → Except String String)
    (e : String) (hneed : conv.needs_compaction = true)
    (h11 : 11 < conv.messages.length)
    (herr : summarize (compact_prompt conv) = Except.error e) :
    conv.compact_if_needed summarize = (conv, Except.error e) := by
  have hlen : ¬ conv.messages.length ≤ 11 := by omega
  simp [Conversation.compact_if_needed, hneed, hlen, herr]

/-- C8 witness: the failure behaviour at a concrete 12-message
conversation over the threshold. -/
theorem C8_compaction_failure_witness :
    convC8ex.compact_if_needed (fun _ => Except.error "boom")
      = (convC8ex, Except.error "boom") :=
  C8_compaction_failure convC8ex (fun _ => Except.error "boom") "boom"
    (by decide) (by decide) rfl

/-- C9: saving a session and then loading it by its id reproduces an
identical message log — the same role and content for every message, in
the same order — and the same working directory. -/
theorem C9_session_round_trip (store : Store) (s : Session) (now : Int) :
    (Session.load (Session.save store s now) s.id).map
        (fun s2 => (s2.conversation.messages, s2.working_directory))
      = some (s.conversation.messages, s.working_directory) := by
  unfold Session.load Session.save
  simp

/-- C10, counterexample: saving a concrete session whose conversation
has `estimated_tokens = 23` (the per-message sum) and
`max_context = 32768` and loading it back yields `estimated_tokens = 0`
and `max_context = 0` — neither field is recomputed on load, so the
loaded token estimate differs from the per-message sum and the loaded
ceiling differs from the configured one. -/
theorem C10_recompute_counterexample :
    ((Session.load (Session.save emptyStoreC10 sessC10ex 5) "s1").map
        (fun s2 => (s2.conversation.estimated_tokens, s2.conversation.max_context)))
      = some (0, 0) ∧
    (sessC10ex.conversation.messages.map (fun m => estimate_tokens m.content)).sum = 23 ∧
    sessC10ex.conversation.max_context = 32768 ∧
    (0 : Nat) ≠ 23 ∧ (0 : Nat) ≠ 32768 := by
  decide

/-- C10 (amended): the conversation's token estimate and max-context
ceiling are not persisted in the session record — saving a session is
insensitive to both fields — but they are not recomputed on load
either: every loaded session carries `estimated_tokens = 0` and
`max_context = 0` (the deserialisation defaults), whatever the message
log, and the resume path sets neither. -/
theorem C10_load_amended (store : Store) (s : Session) (now : Int) (s2 : Session)
    (h : Session.load (Session.save store s now) s.id = some s2) :
    s2.conversation.estimated_tokens = 0 ∧ s2.conversation.max_context = 0 ∧
    s2.conversation.messages = s.conversation.messages ∧
    (∀ est mc : Nat, Session.save store
        { s with conversation := { s.conversation with
            estimated_tokens := est, max_context := mc } } now
      = Session.save store s now) := by
  unfold Session.load Session.save at h
  simp at h
  subst h
  refine ⟨rfl, rfl, rfl, ?_⟩
  intro est mc
  rfl

/-- C10 witness: the amended behaviour at a concrete saved-and-loaded
session. -/
theorem C10_load_amended_witness :
    loadedC10.conversation.estimated_tokens = 0 ∧
    loadedC10.conversation.max_context = 0 ∧
    loadedC10.conversation.messages = sessC10ex.conversation.messages ∧
    Session.save emptyStoreC10
        { sessC10ex with conversation := { sessC10ex.conversation with
            estimated_tokens := 999, max_context := 777 } } 5
      = Session.save emptyStoreC10 sessC10ex 5 :=
  have h := C10_load_amended emptyStoreC10 sessC10ex 5 loadedC10 (by decide)
  ⟨h.1, h.2.1, h.2.2.1, h.2.2.2 999 777⟩

end Vork
